import Mathlib

/-!
Verification of the per-column data-quality checks of
`src/data_quality_interactive.ipynb`: `check_completeness`,
`validate_varchar_detailed`, `validate_bigint_detailed` and the loop-based
`your_original_style`, plus the rule-dispatch layer described by the design
document for the engine module that the notebook calls into.

Modelling conventions (shallow embedding):

* A pandas Series is a `List (Option v)`: `none` models the missing marker
  (`None` / `NaN` / `NaT`), `some x` a present value.  `data.isna()` is the
  `isna` mask below.
* Python/numpy numbers are modelled as exact rationals `ℚ`; `round(x, 2)`
  becomes `round2`.  A numpy `NaN` produced by the unguarded `0 / 0` on an
  empty series (numpy scalar division emits a suppressed `RuntimeWarning`
  and returns `nan`, it does not raise) is modelled as `none` in an
  `Option ℚ` field.
* Elementwise pandas comparisons involving a missing value are `False`
  (`NaN <= k` is `False`; object-dtype `scalar_compare` maps `None` to
  `False` for `>=`/`<=`), which the per-step definitions reproduce.
* The notebook's integer scenario data (mixing a value above `2^63 - 1`
  with negative integers) keeps pandas on object dtype, where comparisons
  are exact Python integer comparisons; the `ℚ` model reproduces that
  exact arithmetic.
-/

namespace DataQuality

/-- Python's `round(x, 2)`: `x` rounded to two decimal places, modelled on
exact rationals. -/
def round2 (q : ℚ) : ℚ := (round (q * 100) : ℚ) / 100

/-- pandas `data.isna()`: the per-position missing mask of a series. -/
def isna {v : Type} (data : List (Option v)) : List Bool :=
  data.map Option.isNone

/-- Result dictionary returned by `check_completeness`. -/
structure CompletenessResult where
  total_values : Nat
  missing_values : Nat
  present_values : Nat
  completeness_rate : ℚ
  deriving DecidableEq

/-- `check_completeness` from the notebook: counts missing values with
`data.isna().sum()`, derives `present = total - missing` and the
completeness rate, whose division is guarded when the series is empty;
the rate is rounded to two decimals. -/
def check_completeness {v : Type} (data : List (Option v)) : CompletenessResult :=
  let missing_count := (isna data).count true
  let total_count := data.length
  let present_count := total_count - missing_count
  let completeness_rate : ℚ :=
    if total_count > 0 then ((present_count : ℚ) / (total_count : ℚ)) * 100 else 0
  { total_values := total_count
    missing_values := missing_count
    present_values := present_count
    completeness_rate := round2 completeness_rate }

/-- Result dictionary returned by the two detailed validity checks.  The
`completeness_rate` field is computed without a zero guard in the source;
on an empty series the numpy division `0 / 0` returns `NaN` (with its
`RuntimeWarning` suppressed), modelled as `none`. -/
structure ValidityResult where
  total_values : Nat
  missing_values : Nat
  valid_values : Nat
  invalid_values : Nat
  validity_rate : ℚ
  completeness_rate : Option ℚ
  deriving DecidableEq

/-- Step 2 of `validate_varchar_detailed`: `data.str.len()`, which is `NaN`
(here `none`) at missing positions. -/
def string_lengths (data : List (Option String)) : List (Option Nat) :=
  data.map (fun o => o.map String.length)

/-- Step 3 of `validate_varchar_detailed`:
`string_lengths <= max_length`; a `NaN` length compares `False` in pandas. -/
def is_valid_length (data : List (Option String)) (max_length : Nat) : List Bool :=
  (string_lengths data).map (fun o =>
    match o with
    | some n => decide (n ≤ max_length)
    | none => false)

/-- Step 4 of `validate_varchar_detailed`:
`is_valid_length.where(~is_missing, np.nan)` — keep the boolean verdict
where the value is present, `NaN` (here `none`) where it is missing. -/
def varchar_validity_results (data : List (Option String)) (max_length : Nat) :
    List (Option Bool) :=
  List.zipWith (fun m v => if m then none else some v)
    (isna data) (is_valid_length data max_length)

/-- `validate_varchar_detailed` from the notebook: string-length validation
returning the metrics dictionary together with the three-valued validity
series (valid / invalid / missing). -/
def validate_varchar_detailed (data : List (Option String)) (max_length : Nat) :
    ValidityResult × List (Option Bool) :=
  let validity_results := varchar_validity_results data max_length
  let missing_count := (isna data).count true
  let valid_count := validity_results.count (some true)
  let invalid_count := validity_results.count (some false)
  let total := data.length
  let validity_rate : ℚ :=
    if total - missing_count > 0 then
      round2 (((valid_count : ℚ) / ((total : ℚ) - (missing_count : ℚ))) * 100)
    else 0
  let completeness_rate : Option ℚ :=
    if total > 0 then
      some (round2 ((((total : ℚ) - (missing_count : ℚ)) / (total : ℚ)) * 100))
    else none
  ({ total_values := total
     missing_values := missing_count
     valid_values := valid_count
     invalid_values := invalid_count
     validity_rate := validity_rate
     completeness_rate := completeness_rate }, validity_results)

/-- Default lower BIGINT bound of `validate_bigint_detailed`. -/
def bigint_min : ℤ := -9223372036854775808

/-- Default upper BIGINT bound of `validate_bigint_detailed`. -/
def bigint_max : ℤ := 9223372036854775807

/-- Step 2 of `validate_bigint_detailed`:
`(data >= min_val) & (data <= max_val)`; each comparison is `False` at a
missing position. -/
def is_within_range (data : List (Option ℚ)) (min_val max_val : ℤ) : List Bool :=
  List.zipWith and
    (data.map (fun o =>
      match o with
      | some x => decide ((min_val : ℚ) ≤ x)
      | none => false))
    (data.map (fun o =>
      match o with
      | some x => decide (x ≤ (max_val : ℚ))
      | none => false))

/-- Step 3 of `validate_bigint_detailed`: `float.is_integer()` per present
value (`x.den = 1` on the exact model), `True` at missing positions. -/
def is_integer (data : List (Option ℚ)) : List Bool :=
  data.map (fun o =>
    match o with
    | some x => decide (x.den = 1)
    | none => true)

/-- Step 4 of `validate_bigint_detailed`:
`is_within_range & is_integer`, then `.where(~is_missing, np.nan)`. -/
def bigint_validity_results (data : List (Option ℚ)) (min_val max_val : ℤ) :
    List (Option Bool) :=
  List.zipWith (fun m v => if m then none else some v)
    (isna data)
    (List.zipWith and (is_within_range data min_val max_val) (is_integer data))

/-- `validate_bigint_detailed` from the notebook: range plus integrality
validation returning the metrics dictionary together with the three-valued
validity series. -/
def validate_bigint_detailed (data : List (Option ℚ)) (min_val max_val : ℤ) :
    ValidityResult × List (Option Bool) :=
  let validity_results := bigint_validity_results data min_val max_val
  let missing_count := (isna data).count true
  let valid_count := validity_results.count (some true)
  let invalid_count := validity_results.count (some false)
  let total := data.length
  let validity_rate : ℚ :=
    if total - missing_count > 0 then
      round2 (((valid_count : ℚ) / ((total : ℚ) - (missing_count : ℚ))) * 100)
    else 0
  let completeness_rate : Option ℚ :=
    if total > 0 then
      some (round2 ((((total : ℚ) - (missing_count : ℚ)) / (total : ℚ)) * 100))
    else none
  ({ total_values := total
     missing_values := missing_count
     valid_values := valid_count
     invalid_values := invalid_count
     validity_rate := validity_rate
     completeness_rate := completeness_rate }, validity_results)

/-- `validate_bigint_detailed` with its Python default arguments, the signed
64-bit limits. -/
def validate_bigint_default (data : List (Option ℚ)) :
    ValidityResult × List (Option Bool) :=
  validate_bigint_detailed data bigint_min bigint_max

/-- `your_original_style` from the notebook: the loop-based original
approach, which folds missing values into `False` instead of keeping them
apart. -/
def your_original_style (data : List (Option String)) (max_len : Nat) : List Bool :=
  data.map (fun value =>
    match value with
    | none => false
    | some s => if s.length ≤ max_len then true else false)

/-- State-passing reading of `check_completeness` for the purity claim:
every pandas operation the body uses (`isna`, `sum`, `len`, arithmetic on
locals) returns a fresh object and none mutates its argument, so the series
after the call is the argument itself, paired with the produced result. -/
def check_completeness_st {v : Type} (data : List (Option v)) :
    CompletenessResult × List (Option v) :=
  (check_completeness data, data)

/-- State-passing reading of `validate_varchar_detailed`: `isna`,
`str.len()`, vectorized comparison and `where` all allocate new series and
leave the argument untouched. -/
def validate_varchar_detailed_st (data : List (Option String)) (max_length : Nat) :
    (ValidityResult × List (Option Bool)) × List (Option String) :=
  (validate_varchar_detailed data max_length, data)

/-- State-passing reading of `validate_bigint_detailed`: `isna`, the
vectorized comparisons, `astype`, `apply` and `where` all allocate new
series and leave the argument untouched. -/
def validate_bigint_detailed_st (data : List (Option ℚ)) (min_val max_val : ℤ) :
    (ValidityResult × List (Option Bool)) × List (Option ℚ) :=
  (validate_bigint_detailed data min_val max_val, data)

/-- Modelled from the spec: the error taxonomy of its section 7.  The engine
module holding it (`data_quality_checker.py`, which the notebook tells the
reader to use in production) is not under `src/`; only its notebook-side
callers are. -/
inductive DQError where
  | unresolvedType
  | unsupportedType
  | invalidRule
  | sourceUnavailable
  | columnNotFound
  deriving DecidableEq

/-- Modelled from the spec: one untyped cell of a column — a string, a
number, or the missing marker. -/
inductive CellValue where
  | str (s : String)
  | num (q : ℚ)
  | missing
  deriving DecidableEq

/-- Modelled from the spec: the tagged rule variants of its sections 3
and 9; `unrecognized` stands for a configuration whose type family the
engine does not implement. -/
inductive ValidationRule where
  | stringRule (max_length : Nat)
  | integerRule (min_val max_val : ℤ)
  | unrecognized (tag : String)

/-- Modelled from the spec: a column is consumable by the string check only
when every present value can be length-measured, that is, is a string. -/
def as_string_column : List CellValue → Option (List (Option String))
  | [] => some []
  | CellValue.missing :: cs => (as_string_column cs).map (fun l => none :: l)
  | CellValue.str s :: cs => (as_string_column cs).map (fun l => some s :: l)
  | CellValue.num _ :: _ => none

/-- Modelled from the spec: a column is consumable by the integer check only
when every present value is a number. -/
def as_number_column : List CellValue → Option (List (Option ℚ))
  | [] => some []
  | CellValue.missing :: cs => (as_number_column cs).map (fun l => none :: l)
  | CellValue.num q :: cs => (as_number_column cs).map (fun l => some q :: l)
  | CellValue.str _ :: _ => none

/-- Modelled from the spec: `check_validity` dispatches on the rule's type
family (spec sections 4.3 and 7); a family the engine does not implement, or
a column the family's check cannot consume, fails with
`UnsupportedTypeError` surfaced to the caller rather than being silently
skipped. -/
def check_validity (data : List CellValue) (rule : ValidationRule) :
    Except DQError (ValidityResult × List (Option Bool)) :=
  match rule with
  | ValidationRule.stringRule max_length =>
    match as_string_column data with
    | some col => Except.ok (validate_varchar_detailed col max_length)
    | none => Except.error DQError.unsupportedType
  | ValidationRule.integerRule mn mx =>
    match as_number_column data with
    | some col => Except.ok (validate_bigint_detailed col mn mx)
    | none => Except.error DQError.unsupportedType
  | ValidationRule.unrecognized _ => Except.error DQError.unsupportedType

/-- Pointwise verdict that the varchar check assigns to one cell. -/
def varcharVerdict (max_length : Nat) (o : Option String) : Option Bool :=
  o.map (fun s => decide (s.length ≤ max_length))

/-- Pointwise verdict that the bigint check assigns to one cell. -/
def bigintVerdict (min_val max_val : ℤ) (o : Option ℚ) : Option Bool :=
  o.map (fun x =>
    (decide ((min_val : ℚ) ≤ x) && decide (x ≤ (max_val : ℚ))) && decide (x.den = 1))

/-- The string column of the spec's first scenario (its second entry has 51
characters, not 50). -/
def c6_column : List (Option String) :=
  [some "Short", some "Exactly-fifty-chars-long-string-padded-to-50chars!!", none]

/-- The integer column of the spec's BIGINT scenario. -/
def c7_column : List (Option ℚ) :=
  [some 42, some (-100), some 9223372036854775808, none]

theorem round2_zero : round2 0 = 0 := by
  simp [round2]

theorem varchar_validity_eq (data : List (Option String)) (max_length : Nat) :
    varchar_validity_results data max_length = data.map (varcharVerdict max_length) := by
  induction data with
  | nil => rfl
  | cons a l ih =>
    cases a <;>
      simpa [varchar_validity_results, isna, is_valid_length, string_lengths,
        varcharVerdict] using ih

theorem bigint_validity_eq (data : List (Option ℚ)) (min_val max_val : ℤ) :
    bigint_validity_results data min_val max_val
      = data.map (bigintVerdict min_val max_val) := by
  induction data with
  | nil => rfl
  | cons a l ih =>
    cases a <;>
      simpa [bigint_validity_results, isna, is_within_range, is_integer,
        bigintVerdict] using ih

theorem count_verdicts (l : List (Option Bool)) :
    l.count (some true) + l.count (some false) + l.count none = l.length := by
  induction l with
  | nil => rfl
  | cons a l ih =>
    cases a with
    | none =>
      simp [List.count_cons]
      omega
    | some b =>
      cases b <;> simp [List.count_cons] <;> omega

theorem count_none_varchar (data : List (Option String)) (max_length : Nat) :
    (data.map (varcharVerdict max_length)).count none = (isna data).count true := by
  induction data with
  | nil => rfl
  | cons a l ih =>
    cases a <;> simp [isna, varcharVerdict, List.count_cons] at ih ⊢ <;> omega

theorem count_none_bigint (data : List (Option ℚ)) (min_val max_val : ℤ) :
    (data.map (bigintVerdict min_val max_val)).count none = (isna data).count true := by
  induction data with
  | nil => rfl
  | cons a l ih =>
    cases a <;> simp [isna, bigintVerdict, List.count_cons] at ih ⊢ <;> omega

theorem mask_varchar (data : List (Option String)) (max_length : Nat) :
    (data.map (varcharVerdict max_length)).map Option.isNone = isna data := by
  induction data with
  | nil => rfl
  | cons a l ih =>
    cases a <;> simpa [isna, varcharVerdict] using ih

theorem mask_bigint (data : List (Option ℚ)) (min_val max_val : ℤ) :
    (data.map (bigintVerdict min_val max_val)).map Option.isNone = isna data := by
  induction data with
  | nil => rfl
  | cons a l ih =>
    cases a <;> simpa [isna, bigintVerdict] using ih

theorem varchar_snd (data : List (Option String)) (max_length : Nat) :
    (validate_varchar_detailed data max_length).2 = data.map (varcharVerdict max_length) :=
  varchar_validity_eq data max_length

theorem bigint_snd (data : List (Option ℚ)) (min_val max_val : ℤ) :
    (validate_bigint_detailed data min_val max_val).2
      = data.map (bigintVerdict min_val max_val) :=
  bigint_validity_eq data min_val max_val

theorem missing_le_total {v : Type} (data : List (Option v)) :
    (isna data).count true ≤ data.length := by
  calc (isna data).count true ≤ (isna data).length := List.count_le_length _ _
  _ = data.length := by simp [isna]

theorem varchar_counts_partition (data : List (Option String)) (max_length : Nat) :
    (validate_varchar_detailed data max_length).1.valid_values
      + (validate_varchar_detailed data max_length).1.invalid_values
      + (validate_varchar_detailed data max_length).1.missing_values
      = (validate_varchar_detailed data max_length).1.total_values := by
  show (varchar_validity_results data max_length).count (some true)
      + (varchar_validity_results data max_length).count (some false)
      + (isna data).count true = data.length
  rw [varchar_validity_eq]
  have h1 := count_verdicts (data.map (varcharVerdict max_length))
  have h2 := count_none_varchar data max_length
  rw [h2, List.length_map] at h1
  exact h1

theorem bigint_counts_partition (data : List (Option ℚ)) (min_val max_val : ℤ) :
    (validate_bigint_detailed data min_val max_val).1.valid_values
      + (validate_bigint_detailed data min_val max_val).1.invalid_values
      + (validate_bigint_detailed data min_val max_val).1.missing_values
      = (validate_bigint_detailed data min_val max_val).1.total_values := by
  show (bigint_validity_results data min_val max_val).count (some true)
      + (bigint_validity_results data min_val max_val).count (some false)
      + (isna data).count true = data.length
  rw [bigint_validity_eq]
  have h1 := count_verdicts (data.map (bigintVerdict min_val max_val))
  have h2 := count_none_bigint data min_val max_val
  rw [h2, List.length_map] at h1
  exact h1

theorem orig_style_eq (data : List (Option String)) (max_len : Nat) :
    your_original_style data max_len
      = (data.map (varcharVerdict max_len)).map (fun v => v.getD false) := by
  induction data with
  | nil => rfl
  | cons a l ih =>
    cases a with
    | none => simpa [your_original_style, varcharVerdict] using ih
    | some s =>
      by_cases h : s.length ≤ max_len <;>
        simp [your_original_style, varcharVerdict, h] at ih ⊢ <;> exact ih

theorem verdict_of_all_present (data : List (Option String)) (max_len : Nat)
    (h : data.all Option.isSome = true) :
    data.map (varcharVerdict max_len) = (your_original_style data max_len).map some := by
  induction data with
  | nil => rfl
  | cons a l ih =>
    rw [List.all_cons, Bool.and_eq_true] at h
    cases a with
    | none => simp at h
    | some s =>
      have ht := ih h.2
      by_cases hl : s.length ≤ max_len <;>
        simp [your_original_style, varcharVerdict, hl] at ht ⊢ <;> exact ht

/-- C1: each detailed validity check classifies every position as exactly one
of valid, invalid or missing — the three classes partition the column, so
valid + invalid + missing = total — and the set of positions it classifies
missing is exactly the `data.isna()` mask whose `True` count is what
`check_completeness` reports as missing: a missing value is never counted
valid or invalid, and a present value is never counted missing. -/
theorem missing_and_validity_are_orthogonal
    (sdata : List (Option String)) (max_length : Nat)
    (ndata : List (Option ℚ)) (min_val max_val : ℤ) :
    ((validate_varchar_detailed sdata max_length).2.map Option.isNone = isna sdata)
    ∧ ((validate_bigint_detailed ndata min_val max_val).2.map Option.isNone = isna ndata)
    ∧ ((check_completeness sdata).missing_values = (isna sdata).count true)
    ∧ ((validate_varchar_detailed sdata max_length).1.valid_values
        + (validate_varchar_detailed sdata max_length).1.invalid_values
        + (validate_varchar_detailed sdata max_length).1.missing_values
        = (validate_varchar_detailed sdata max_length).1.total_values)
    ∧ ((validate_bigint_detailed ndata min_val max_val).1.valid_values
        + (validate_bigint_detailed ndata min_val max_val).1.invalid_values
        + (validate_bigint_detailed ndata min_val max_val).1.missing_values
        = (validate_bigint_detailed ndata min_val max_val).1.total_values) := by
  refine ⟨?_, ?_, rfl, varchar_counts_partition sdata max_length,
    bigint_counts_partition ndata min_val max_val⟩
  · rw [varchar_snd, mask_varchar]
  · rw [bigint_snd, mask_bigint]

/-- C2: `check_completeness` satisfies missing + present = total, and both
detailed validity checks satisfy valid + invalid = total - missing: every
present value is counted exactly once, as valid or as invalid. -/
theorem count_invariants
    {v : Type} (data : List (Option v))
    (sdata : List (Option String)) (max_length : Nat)
    (ndata : List (Option ℚ)) (min_val max_val : ℤ) :
    ((check_completeness data).missing_values + (check_completeness data).present_values
      = (check_completeness data).total_values)
    ∧ ((validate_varchar_detailed sdata max_length).1.valid_values
        + (validate_varchar_detailed sdata max_length).1.invalid_values
        = (validate_varchar_detailed sdata max_length).1.total_values
          - (validate_varchar_detailed sdata max_length).1.missing_values)
    ∧ ((validate_bigint_detailed ndata min_val max_val).1.valid_values
        + (validate_bigint_detailed ndata min_val max_val).1.invalid_values
        = (validate_bigint_detailed ndata min_val max_val).1.total_values
          - (validate_bigint_detailed ndata min_val max_val).1.missing_values) := by
  refine ⟨?_, ?_, ?_⟩
  · have h := missing_le_total data
    show (isna data).count true + (data.length - (isna data).count true) = data.length
    omega
  · have h := varchar_counts_partition sdata max_length
    omega
  · have h := bigint_counts_partition ndata min_val max_val
    omega

/-- C3: both detailed validity checks report
validity_rate = valid / (total - missing) * 100 rounded to two decimal
places when the denominator total - missing is positive, and validity_rate
= 0 when it is zero. -/
theorem validity_rate_formula
    (sdata : List (Option String)) (max_length : Nat)
    (ndata : List (Option ℚ)) (min_val max_val : ℤ) :
    ((validate_varchar_detailed sdata max_length).1.validity_rate
      = if (validate_varchar_detailed sdata max_length).1.total_values
            - (validate_varchar_detailed sdata max_length).1.missing_values > 0 then
          round2 ((((validate_varchar_detailed sdata max_length).1.valid_values : ℚ)
            / (((validate_varchar_detailed sdata max_length).1.total_values : ℚ)
              - ((validate_varchar_detailed sdata max_length).1.missing_values : ℚ))) * 100)
        else 0)
    ∧ ((validate_bigint_detailed ndata min_val max_val).1.validity_rate
      = if (validate_bigint_detailed ndata min_val max_val).1.total_values
            - (validate_bigint_detailed ndata min_val max_val).1.missing_values > 0 then
          round2 ((((validate_bigint_detailed ndata min_val max_val).1.valid_values : ℚ)
            / (((validate_bigint_detailed ndata min_val max_val).1.total_values : ℚ)
              - ((validate_bigint_detailed ndata min_val max_val).1.missing_values : ℚ))) * 100)
        else 0) :=
  ⟨rfl, rfl⟩

/-- C4: `check_completeness` returns the total length, the isna-mask count
as missing, present = total - missing, and
completeness_rate = present / total * 100 rounded to two decimal places,
with rate 0 (not a division error) when total = 0. -/
theorem check_completeness_formula {v : Type} (data : List (Option v)) :
    ((check_completeness data).total_values = data.length)
    ∧ ((check_completeness data).missing_values = (isna data).count true)
    ∧ ((check_completeness data).present_values
        = (check_completeness data).total_values
          - (check_completeness data).missing_values)
    ∧ ((check_completeness data).completeness_rate
      = if (check_completeness data).total_values > 0 then
          round2 ((((check_completeness data).present_values : ℚ)
            / ((check_completeness data).total_values : ℚ)) * 100)
        else 0) := by
  refine ⟨rfl, rfl, rfl, ?_⟩
  by_cases h : 0 < data.length
  · simp [check_completeness, h]
  · simp [check_completeness, h, round2_zero]

/-- C5 (counterexample): on the empty series the completeness-rate division
of the detailed validity checks has no zero guard; it is numpy's `0 / 0`,
which yields NaN (modelled `none`), not the rate 0 the claim states. -/
theorem empty_series_completeness_rate_nan :
    (validate_varchar_detailed ([] : List (Option String)) 50).1.completeness_rate = none
    ∧ (validate_varchar_detailed ([] : List (Option String)) 50).1.completeness_rate
        ≠ some 0
    ∧ (validate_bigint_default ([] : List (Option ℚ))).1.completeness_rate = none := by
  decide

/-- C5 (amended): on a column with total = 0 no division error is raised and
the guarded rates are 0 — validity_rate of both detailed checks and the
completeness_rate of check_completeness — but the unguarded
completeness_rate of the two detailed checks is NaN (`none`), not 0. -/
theorem empty_series_rates
    (sdata : List (Option String)) (ndata : List (Option ℚ))
    (max_length : Nat) (min_val max_val : ℤ)
    (hs : sdata.length = 0) (hn : ndata.length = 0) :
    (validate_varchar_detailed sdata max_length).1.validity_rate = 0
    ∧ (validate_varchar_detailed sdata max_length).1.completeness_rate = none
    ∧ (validate_bigint_detailed ndata min_val max_val).1.validity_rate = 0
    ∧ (validate_bigint_detailed ndata min_val max_val).1.completeness_rate = none
    ∧ (check_completeness sdata).completeness_rate = 0
    ∧ (check_completeness ndata).completeness_rate = 0 := by
  rw [List.length_eq_zero] at hs hn
  subst hs; subst hn
  exact ⟨rfl, rfl, rfl, rfl, round2_zero, round2_zero⟩

theorem empty_series_rates_witness :
    (validate_varchar_detailed ([] : List (Option String)) 50).1.validity_rate = 0
    ∧ (validate_varchar_detailed ([] : List (Option String)) 50).1.completeness_rate
        = none
    ∧ (validate_bigint_detailed ([] : List (Option ℚ)) bigint_min bigint_max).1.validity_rate
        = 0
    ∧ (validate_bigint_detailed ([] : List (Option ℚ)) bigint_min bigint_max).1.completeness_rate
        = none
    ∧ (check_completeness ([] : List (Option String))).completeness_rate = 0
    ∧ (check_completeness ([] : List (Option ℚ))).completeness_rate = 0 :=
  empty_series_rates [] [] 50 bigint_min bigint_max rfl rfl

/-- C6 (counterexample): the scenario string
"Exactly-fifty-chars-long-string-padded-to-50chars!!" has 51 characters, so
with max_length = 50 the check returns valid 1, invalid 1, validity_rate 50,
not the claimed valid 2, invalid 0, validity_rate 100. -/
theorem scenario_string_counterexample :
    ("Exactly-fifty-chars-long-string-padded-to-50chars!!".length = 51)
    ∧ (validate_varchar_detailed c6_column 50).1.valid_values = 1
    ∧ (validate_varchar_detailed c6_column 50).1.invalid_values = 1
    ∧ (validate_varchar_detailed c6_column 50).1.validity_rate = 50
    ∧ ¬((validate_varchar_detailed c6_column 50).1.valid_values = 2
        ∧ (validate_varchar_detailed c6_column 50).1.invalid_values = 0
        ∧ (validate_varchar_detailed c6_column 50).1.validity_rate = 100) := by
  refine ⟨rfl, rfl, rfl, ?_, ?_⟩
  · have h : (validate_varchar_detailed c6_column 50).1.validity_rate
        = round2 ((1 : ℚ) / ((3 : ℚ) - 1) * 100) := rfl
    rw [h]
    norm_num [round2]
  · intro h
    obtain ⟨h2, -, -⟩ := h
    have h1 : (validate_varchar_detailed c6_column 50).1.valid_values = 1 := rfl
    omega

/-- C6 (amended): for the string check a value is valid iff its length is at
most max_length (the notebook check has no pattern rule); since the scenario
column's second entry is 51 characters long, the check on it with
max_length = 50 returns total 3, missing 1, valid 1, invalid 1 and
validity_rate 50.0. -/
theorem varchar_length_rule (data : List (Option String)) (max_length : Nat) :
    ((validate_varchar_detailed data max_length).2
      = data.map (varcharVerdict max_length))
    ∧ (∀ s : String, varcharVerdict max_length (some s)
        = some (decide (s.length ≤ max_length)))
    ∧ (validate_varchar_detailed c6_column 50).1.total_values = 3
    ∧ (validate_varchar_detailed c6_column 50).1.missing_values = 1
    ∧ (validate_varchar_detailed c6_column 50).1.valid_values = 1
    ∧ (validate_varchar_detailed c6_column 50).1.invalid_values = 1
    ∧ (validate_varchar_detailed c6_column 50).1.validity_rate = 50 := by
  refine ⟨varchar_snd data max_length, fun s => rfl, rfl, rfl, rfl, rfl, ?_⟩
  have h : (validate_varchar_detailed c6_column 50).1.validity_rate
      = round2 ((1 : ℚ) / ((3 : ℚ) - 1) * 100) := rfl
  rw [h]
  norm_num [round2]

/-- C7: a bigint value is valid iff min_value ≤ value ≤ max_value and it has
no fractional component, the bounds defaulting to the signed 64-bit limits
when unspecified; on the scenario column [42, -100, 9223372036854775808,
None] with default bounds the check returns missing 1, valid 2, invalid 1 —
the value one above the maximum is invalid — and 42 is a valid value while
42.5 is invalid. -/
theorem bigint_rule (data : List (Option ℚ)) (min_val max_val : ℤ) :
    ((validate_bigint_detailed data min_val max_val).2
      = data.map (bigintVerdict min_val max_val))
    ∧ (∀ x : ℚ, bigintVerdict min_val max_val (some x)
        = some (decide (((min_val : ℚ) ≤ x ∧ x ≤ (max_val : ℚ)) ∧ x.den = 1)))
    ∧ (validate_bigint_default data = validate_bigint_detailed data bigint_min bigint_max)
    ∧ (bigint_min = -(2 ^ 63) ∧ bigint_max = 2 ^ 63 - 1)
    ∧ (validate_bigint_default c7_column).1.missing_values = 1
    ∧ (validate_bigint_default c7_column).1.valid_values = 2
    ∧ (validate_bigint_default c7_column).1.invalid_values = 1
    ∧ (bigintVerdict bigint_min bigint_max (some ((9223372036854775808 : ℚ))) = some false)
    ∧ (bigintVerdict bigint_min bigint_max (some (42 : ℚ)) = some true)
    ∧ (bigintVerdict bigint_min bigint_max (some ((85 : ℚ) / 2)) = some false) := by
  refine ⟨bigint_snd data min_val max_val, fun x => by simp [bigintVerdict], rfl,
    by decide, ?_, ?_, ?_, ?_, ?_, ?_⟩
  · decide
  · decide
  · decide
  · decide
  · decide
  · have hden : ((85 : ℚ) / 2).den = 2 := by norm_num [Rat.den]
    simp [bigintVerdict, hden]

/-- C8: the per-column checks are deterministic pure functions: in the
state-passing reading each check leaves its input series unchanged, and
running it a second time on that unchanged input yields an identical result
dictionary and validity series. -/
theorem checks_are_pure
    {v : Type} (data : List (Option v))
    (sdata : List (Option String)) (max_length : Nat)
    (ndata : List (Option ℚ)) (min_val max_val : ℤ) :
    ((check_completeness_st data).2 = data)
    ∧ ((check_completeness_st ((check_completeness_st data).2)).1
        = (check_completeness_st data).1)
    ∧ ((validate_varchar_detailed_st sdata max_length).2 = sdata)
    ∧ ((validate_varchar_detailed_st
          ((validate_varchar_detailed_st sdata max_length).2) max_length).1
        = (validate_varchar_detailed_st sdata max_length).1)
    ∧ ((validate_bigint_detailed_st ndata min_val max_val).2 = ndata)
    ∧ ((validate_bigint_detailed_st
          ((validate_bigint_detailed_st ndata min_val max_val).2) min_val max_val).1
        = (validate_bigint_detailed_st ndata min_val max_val).1) :=
  ⟨rfl, rfl, rfl, rfl, rfl, rfl⟩

/-- C9: checking a column whose rule belongs to a type family the engine
does not implement, or whose values the selected family's check cannot
consume (for the string check: a value that cannot be length-measured),
fails with UnsupportedTypeError surfaced to the caller, and never silently
returns a result. -/
theorem unsupported_type_is_surfaced
    (data : List CellValue) (tag : String) (max_length : Nat) (min_val max_val : ℤ) :
    (check_validity data (ValidationRule.unrecognized tag)
      = Except.error DQError.unsupportedType)
    ∧ (as_string_column data = none →
        check_validity data (ValidationRule.stringRule max_length)
          = Except.error DQError.unsupportedType)
    ∧ (as_number_column data = none →
        check_validity data (ValidationRule.integerRule min_val max_val)
          = Except.error DQError.unsupportedType)
    ∧ (∀ r, check_validity data (ValidationRule.unrecognized tag) ≠ Except.ok r) := by
  refine ⟨rfl, ?_, ?_, ?_⟩
  · intro h
    simp [check_validity, h]
  · intro h
    simp [check_validity, h]
  · intro r h
    simp [check_validity] at h

theorem unsupported_type_witness :
    check_validity [CellValue.num 3] (ValidationRule.stringRule 50)
      = Except.error DQError.unsupportedType :=
  (unsupported_type_is_surfaced [CellValue.num 3] "datetime" 50 bigint_min bigint_max).2.1
    rfl

/-- C10: on a series without missing values the loop-based
your_original_style agrees positionwise with the validity series of
validate_varchar_detailed; in general the two disagree exactly at the
missing positions, where your_original_style reports False while the
detailed check reports missing: collapsing missing verdicts to False turns
the detailed series into the loop results, and the detailed series is
missing exactly on the isna mask. -/
theorem original_style_refinement (data : List (Option String)) (max_len : Nat) :
    (your_original_style data max_len
      = (validate_varchar_detailed data max_len).2.map (fun v => v.getD false))
    ∧ ((validate_varchar_detailed data max_len).2.map Option.isNone = isna data)
    ∧ (data.all Option.isSome = true →
        (validate_varchar_detailed data max_len).2
          = (your_original_style data max_len).map some) := by
  refine ⟨?_, ?_, ?_⟩
  · rw [varchar_snd, orig_style_eq]
  · rw [varchar_snd, mask_varchar]
  · intro h
    rw [varchar_snd]
    exact verdict_of_all_present data max_len h

theorem original_style_refinement_witness :
    (validate_varchar_detailed [some "ab", some "xyz"] 2).2
      = (your_original_style [some "ab", some "xyz"] 2).map some :=
  (original_style_refinement [some "ab", some "xyz"] 2).2.2 rfl

end DataQuality
